import Mathlib

/-!
Shallow embedding of the switchmate BLE command-line utility
(switchmate.py) together with proofs about its protocol core: the
packet-signing algorithm, the firmware-dependent switch operations, the
notification delegate, and the scan/status discovery logic.

Python byte strings are modelled as lists of natural numbers (each
element a byte value), characteristic handles as natural numbers, and
the signed 64-bit arithmetic of ctypes.c_int64 as integers with an
explicit reinterpretation of the value modulo 2^64.  Device addresses
(MAC strings of fixed shape in the source) are modelled by their
numeric value, which is order-isomorphic to the lexicographic order on
the address strings bluepy produces.
-/

set_option maxRecDepth 100000

namespace Switchmate

/-- Service UUID advertised by devices with firmware older than 2.99.15. -/
def OLD_FIRMWARE_SERVICE : String := "23d1bcea5f782315deef121223150000"

/-- Service UUID advertised by devices with firmware 2.99.15 or higher. -/
def NEW_FIRMWARE_SERVICE : String := "abd0f555eb40e7b2ac49ddeb83d32ba2"

/-- The list SWITCHMATE_SERVICES from the source. -/
def SWITCHMATE_SERVICES : List String := [OLD_FIRMWARE_SERVICE, NEW_FIRMWARE_SERVICE]

/-- Payload written to a notify handle to enable notifications. -/
def ENABLE_NOTIFY : List Nat := [0x01]

def AUTH_NOTIFY_HANDLE : Nat := 0x17

def AUTH_HANDLE : Nat := 0x16

def AUTH_INIT_VALUE : List Nat := [0x00, 0x00, 0x00, 0x00, 0x01, 0x00]

def STATE_NOTIFY_HANDLE : Nat := 0x0f

def OLD_STATE_HANDLE : Nat := 0x0e

def ORIGINAL_STATE_HANDLE : Nat := 0x2e

def BRIGHT_STATE_HANDLE : Nat := 0x30

def ORIGINAL_MODEL_STRING_HANDLE : Nat := 0x14

def SERVICES_AD_TYPE : Nat := 0x07

def AD_TYPE_SERVICE_DATA : Nat := 0x16

/-- Reinterpretation of a value in the range 0 ≤ n < 2^64 as a signed
64-bit integer, as performed by ctypes.c_int64(...).value.  The
literals are 2^63 and 2^64, written out so that proofs never have to
reduce power expressions. -/
def toSigned64 (n : Nat) : Int :=
  if n < 9223372036854775808 then (n : Int) else (n : Int) - 18446744073709551616

/-- XOR of an arbitrary-precision integer with a nonnegative value,
following Python semantics: integers behave as two's-complement bit
strings with infinite sign extension. -/
def pyXor (a : Int) (n : Nat) : Int :=
  if 0 ≤ a then ((a.toNat ^^^ n : Nat) : Int)
  else -(((((-a) - 1).toNat ^^^ n) + 1 : Nat) : Int)

/-- Multiplication with overflow: c_mul from the source computes
(long(a) * b) & 0xffffffffffffffff and reinterprets the result as a
signed 64-bit integer via ctypes.c_int64. -/
def c_mul (a b : Int) : Int :=
  toSigned64 ((a * b).emod 18446744073709551616).toNat

/-- The 8-byte little-endian packing of a 64-bit value, as produced by
struct.pack of a value with format <Q. -/
def pack_le (v : Nat) : List Nat :=
  [v % 256, (v >>> 8) % 256, (v >>> 16) % 256, (v >>> 24) % 256,
   (v >>> 32) % 256, (v >>> 40) % 256, (v >>> 48) % 256, (v >>> 56) % 256]

/-- struct.pack with format <Q: it fails (struct.error) when the value
does not fit in 64 bits (the literal is 2^64), and otherwise yields
the 8-byte little-endian packing. -/
def pack_q (v : Nat) : Option (List Nat) :=
  if v < 18446744073709551616 then some (pack_le v) else none

/-- The sign function from the source: a variant of the
Fowler-Noll-Vo hash over blob = data ++ key, followed by packing.  Out
of range indexing (blob[0], data[0], data[1]) and struct.pack overflow
are modelled by none, which corresponds to an uncaught Python
exception. -/
def sign (data key : List Nat) : Option (List Nat) := do
  let blob := data ++ key
  let b0 ← blob[0]?
  let x : Int := blob.foldl
    (fun x c => pyXor (pyXor (c_mul 1000003 x) c) blob.length)
    (Int.ofNat (b0 <<< 7))
  let shifted_hash : Nat := (x.emod 4294967296).toNat <<< 16
  let d0 ← data[0]?
  let d1 ← data[1]?
  let packed ← pack_q (shifted_hash ||| (d0 <<< 48) ||| (d1 <<< 56))
  return packed.drop 2

/-- Reference computation of the signature, written from the
specification text for 2-byte data and 6-byte key: the accumulator is
initialized to blob[0] << 7 and then updated once per byte of
blob = data ++ key (so blob[0] contributes to the initialization and
once more in the loop) by multiplying by 1000003 modulo 2^64,
reinterpreting as a signed 64-bit integer, and XORing with the byte and
with len(blob) = 8; the result is the 8-byte little-endian packing of
((x & 0xffffffff) << 16) | (data[0] << 48) | (data[1] << 56) with its
first 2 bytes removed. -/
def signSpec (d0 d1 k0 k1 k2 k3 k4 k5 : Nat) : List Nat :=
  let step : Int → Nat → Int := fun x c =>
    pyXor (pyXor (toSigned64 (((1000003 * x).emod 18446744073709551616).toNat)) c) 8
  let x0 : Int := Int.ofNat (d0 <<< 7)
  let x8 := step (step (step (step (step (step (step (step x0 d0) d1) k0) k1) k2) k3) k4) k5
  let v : Nat := ((x8.emod 4294967296).toNat <<< 16) ||| (d0 <<< 48) ||| (d1 <<< 56)
  [(v >>> 16) % 256, (v >>> 24) % 256, (v >>> 32) % 256,
   (v >>> 40) % 256, (v >>> 48) % 256, (v >>> 56) % 256]

/-- A connected peripheral, abstracted to the one synchronous GATT
primitive the adapter code reads with: readCharacteristic maps a
characteristic handle to the bytes the device returns for it. -/
structure Device where
  readCharacteristic : Nat → List Nat

/-- The byte string b'Original' compared against the model string. -/
def ORIGINAL_MODEL_BYTES : List Nat := [0x4f, 0x72, 0x69, 0x67, 0x69, 0x6e, 0x61, 0x6c]

/-- is_original_device from the source: read the model string at the
Original model-string handle and compare with b'Original'. -/
def is_original_device (device : Device) : Bool :=
  device.readCharacteristic ORIGINAL_MODEL_STRING_HANDLE == ORIGINAL_MODEL_BYTES

/-- get_state_handle from the source. -/
def get_state_handle (device : Device) : Nat :=
  if is_original_device device then ORIGINAL_STATE_HANDLE else BRIGHT_STATE_HANDLE

/-- get_state from the source; the state_handle argument models the
Python default argument state_handle=None. -/
def get_state (device : Device) (state_handle : Option Nat) : List Nat :=
  match state_handle with
  | none => device.readCharacteristic (get_state_handle device)
  | some h => device.readCharacteristic h

/-- One GATT write: handle, payload, and the withResponse flag of
writeCharacteristic (false when the source omits the argument). -/
structure WriteAction where
  handle : Nat
  value : List Nat
  withResponse : Bool
deriving DecidableEq, Repr

/-- The message printed by switch_new_firmware. -/
inductive SwitchReport where
  | switched
  | already (v : Nat)
deriving DecidableEq, Repr

/-- switch_new_firmware from the source, returning the GATT writes it
performs together with the report it prints. -/
def switch_new_firmware (device : Device) (val : List Nat) : List WriteAction × SwitchReport :=
  let state_handle := get_state_handle device
  let curr_val := get_state device (some state_handle)
  if curr_val ≠ val then
    ([⟨state_handle, val, true⟩], SwitchReport.switched)
  else
    ([], SwitchReport.already (val.headD 0))

/-- Outcome computed by NotificationDelegate.handleNotification:
either the auth key (payload from byte 3 on) is printed, or the
switch outcome is reported from the last payload byte. -/
inductive NotifyResult where
  | authKey (key : List Nat)
  | switched
  | switchFailed
deriving DecidableEq, Repr

/-- Process exit code produced by the delegate via sys.exit. -/
def NotifyResult.exitCode : NotifyResult → Nat
  | NotifyResult.authKey _ => 0
  | NotifyResult.switched => 0
  | NotifyResult.switchFailed => 1

/-- NotificationDelegate.handleNotification from the source; none
models the uncaught IndexError when data[-1] is read on an empty
payload. -/
def handleNotification (handle : Nat) (data : List Nat) : Option NotifyResult :=
  if handle = AUTH_HANDLE then
    some (NotifyResult.authKey (data.drop 3))
  else
    match data.getLast? with
    | none => none
    | some b => if b = 0 then some NotifyResult.switched else some NotifyResult.switchFailed

/-- Result of switch_old_firmware: either an uncaught signing error
after the notify-enable write, or the full write sequence followed by
the suspended wait for a notification. -/
inductive OldSwitchResult where
  | error (writes : List WriteAction)
  | waiting (writes : List WriteAction)
deriving DecidableEq, Repr

/-- switch_old_firmware from the source: enable notifications on the
state-notify handle, sign the command, write the signature to the old
state handle, then poll for notifications. -/
def switch_old_firmware (auth_key : List Nat) (val : List Nat) : OldSwitchResult :=
  let w1 : WriteAction := ⟨STATE_NOTIFY_HANDLE, ENABLE_NOTIFY, true⟩
  match sign ([0x01] ++ val) auth_key with
  | none => OldSwitchResult.error [w1]
  | some signed_val =>
      OldSwitchResult.waiting [w1, ⟨OLD_STATE_HANDLE, signed_val, false⟩]

/-- The polling loop at the end of switch_old_firmware, observed for a
given number of 1-second waitForNotifications slices.  The stream
notifs gives the notification (if any) delivered during each slice.
The result is none while the loop is still running, and some outcome
once a notification has fired the delegate (which exits the process).
The source loop is while True with no break, so the only way it ever
stops is a delivered notification. -/
def switch_old_wait (notifs : Nat → Option (Nat × List Nat)) : Nat → Option (Option NotifyResult)
  | 0 => none
  | n + 1 =>
    match notifs 0 with
    | some hd => some (handleNotification hd.1 hd.2)
    | none => switch_old_wait (fun k => notifs (k + 1)) n

/-- One advertisement entry of a scan: the device address (modelled
numerically) and its AD structures as (adtype, description, value)
triples, the shape bluepy's getScanData returns. -/
structure ScanEntry where
  addr : Nat
  scanData : List (Nat × String × String)
deriving DecidableEq, Repr

/-- getValueText of bluepy: the value text of the first AD structure
of the given type, if any. -/
def getValueText (dev : ScanEntry) (adtype : Nat) : Option String :=
  (dev.scanData.find? (fun t => t.1 == adtype)).map (fun t => t.2.2)

/-- The per-AD-structure test inside scan: the structure type is the
services AD type and the value is one of the switchmate service
UUIDs. -/
def is_switchmate (adtype : Nat) (value : String) : Prop :=
  adtype = SERVICES_AD_TYPE ∧ value ∈ SWITCHMATE_SERVICES

instance (adtype : Nat) (value : String) : Decidable (is_switchmate adtype value) :=
  inferInstanceAs (Decidable (_ ∧ _))

/-- The body of the nested loops of scan: scan every AD structure of
one device and append the device to the accumulator the first time a
switchmate structure is found, skipping devices already present. -/
def scanStep (acc : List ScanEntry) (dev : ScanEntry) : List ScanEntry :=
  dev.scanData.foldl
    (fun acc2 t => if is_switchmate t.1 t.2.2 ∧ dev ∉ acc2 then acc2 ++ [dev] else acc2)
    acc

/-- The switchmates list accumulated by the scan verb over the devices
the scanner returned, in the scanner's order. -/
def scan_switchmates (devices : List ScanEntry) : List ScanEntry :=
  devices.foldl scanStep []

/-- Mutable fields of ScanDelegate relevant to discovery: addresses
already seen and the old- and new-firmware device lists. -/
structure ScanState where
  seen : List Nat
  found_old : List ScanEntry
  found_new : List ScanEntry
deriving DecidableEq, Repr

/-- ScanDelegate.handleDiscovery from the source: skip devices not
matching the optional address filter, deduplicate by address, then
classify by the value of the services AD structure. -/
def handleDiscovery (mac_address : Option Nat) (st : ScanState) (dev : ScanEntry) : ScanState :=
  if mac_address.isSome ∧ mac_address ≠ some dev.addr then st
  else if dev.addr ∈ st.seen then st
  else
    let st1 : ScanState := ⟨st.seen ++ [dev.addr], st.found_old, st.found_new⟩
    let service := getValueText dev SERVICES_AD_TYPE
    if service = some OLD_FIRMWARE_SERVICE then
      ⟨st1.seen, st1.found_old ++ [dev], st1.found_new⟩
    else if service = some NEW_FIRMWARE_SERVICE then
      ⟨st1.seen, st1.found_old, st1.found_new ++ [dev]⟩
    else st1

/-- The delegate state after a scan delivered the given discoveries in
order, starting from the freshly initialized delegate. -/
def processDiscoveries (mac_address : Option Nat) (devs : List ScanEntry) : ScanState :=
  devs.foldl (handleDiscovery mac_address) ⟨[], [], []⟩

/-- Value of one hexadecimal digit character. -/
def hexDigitVal (c : Char) : Option Nat :=
  if '0' ≤ c ∧ c ≤ '9' then some (c.toNat - '0'.toNat)
  else if 'a' ≤ c ∧ c ≤ 'f' then some (c.toNat - 'a'.toNat + 10)
  else if 'A' ≤ c ∧ c ≤ 'F' then some (c.toNat - 'A'.toNat + 10)
  else none

/-- Python int(s, 16): none models the ValueError raised on an empty
or non-hexadecimal string. -/
def parseHex (s : String) : Option Nat :=
  if s.isEmpty then none
  else s.toList.foldl
    (fun acc c => acc.bind (fun n => (hexDigitVal c).map (fun d => n * 16 + d)))
    (some 0)

/-- The on/off bit ScanDelegate.print_found extracts for an
old-firmware device from its service-data AD structure:
(int(data, 16) >> 8) & 1.  none models the uncaught exception when the
structure is absent or not hexadecimal. -/
def advertised_state (dev : ScanEntry) : Option Nat :=
  (getValueText dev AD_TYPE_SERVICE_DATA).bind
    (fun data => (parseHex data).map (fun n => (n >>> 8) &&& 1))

/-- How the status verb obtains one device's on/off state: directly
from the advertisement payload, or by connecting to the device and
reading the state characteristic. -/
inductive StatusAction where
  | fromAdvertisement (addr : Nat) (val : Option Nat)
  | connectAndRead (addr : Nat)
deriving DecidableEq, Repr

/-- ScanDelegate.print_found from the source: old-firmware devices are
reported from their advertisement service data, new-firmware devices
by connecting (Peripheral(dev)) and reading the state
characteristic. -/
def print_found (st : ScanState) : List StatusAction :=
  st.found_old.map (fun dev => StatusAction.fromAdvertisement dev.addr (advertised_state dev)) ++
  st.found_new.map (fun dev => StatusAction.connectAndRead dev.addr)

/-- binascii.unhexlify on a list of characters: pairs of hex digits
become bytes; an odd length or a non-hex digit raises
(modelled by none). -/
def unhexChars : List Char → Option (List Nat)
  | [] => some []
  | [_] => none
  | c1 :: c2 :: rest => do
    let hi ← hexDigitVal c1
    let lo ← hexDigitVal c2
    let tail ← unhexChars rest
    return (hi * 16 + lo) :: tail

/-- binascii.unhexlify from the source's auth-key handling. -/
def unhexlify (s : String) : Option (List Nat) :=
  unhexChars s.toList

/-- Outcome of the switch branch of the main dispatch: the
new-firmware path, the old-firmware path, or an exception that the
surrounding handler (which catches only BTLEException) does not
catch. -/
inductive MainOutcome where
  | newFirmwareSwitch (writes : List WriteAction) (report : SwitchReport)
  | oldFirmwareSwitch (result : OldSwitchResult)
  | uncaughtError
deriving DecidableEq, Repr

/-- The switch dispatch of the source's main block: new firmware goes
to switch_new_firmware; otherwise the auth-key argument is unhexlified
(an invalid hex string, such as the documented placeholder none,
raises an error no handler catches) and switch_old_firmware runs. -/
def switch_dispatch (device : Device) (is_new : Bool) (auth_key_arg : String)
    (val : List Nat) : MainOutcome :=
  if is_new then
    let r := switch_new_firmware device val
    MainOutcome.newFirmwareSwitch r.1 r.2
  else
    match unhexlify auth_key_arg with
    | none => MainOutcome.uncaughtError
    | some auth_key => MainOutcome.oldFirmwareSwitch (switch_old_firmware auth_key val)

/-- A concrete Current-generation Original device whose switch is
currently on: the model-string characteristic reads b'Original' and
every other characteristic reads the single byte 0x01. -/
def exDeviceOriginalOn : Device :=
  ⟨fun h => if h = ORIGINAL_MODEL_STRING_HANDLE then ORIGINAL_MODEL_BYTES else [0x01]⟩

/-- A concrete device all of whose characteristics read empty. -/
def nullDevice : Device :=
  ⟨fun _ => []⟩

/-- A concrete advertisement of a new-firmware device at address
0xaa. -/
def devA : ScanEntry :=
  ⟨0xaa, [(0x07, "", NEW_FIRMWARE_SERVICE)]⟩

/-- A concrete advertisement of an old-firmware device at address
0xbb. -/
def devB : ScanEntry :=
  ⟨0xbb, [(0x07, "", OLD_FIRMWARE_SERVICE)]⟩

/-- A concrete new-firmware advertisement that also carries a
service-data structure encoding the on state (bit 0x0100 set). -/
def newDevEx : ScanEntry :=
  ⟨0xaa, [(0x07, "", NEW_FIRMWARE_SERVICE), (0x16, "", "0100")]⟩

/-- The whole-list form of the per-structure switchmate test, used to
state which devices the scan verb reports. -/
def dev_matches (dev : ScanEntry) : Prop :=
  ∃ t ∈ dev.scanData, is_switchmate t.1 t.2.2

instance (dev : ScanEntry) : Decidable (dev_matches dev) :=
  inferInstanceAs (Decidable (∃ t ∈ dev.scanData, is_switchmate t.1 t.2.2))

/-- Unfolding List.foldl over an eight-element list. -/
lemma foldl_chain8 (f : Int → Nat → Int) (x0 : Int) (a b c d e g h i : Nat) :
    List.foldl f x0 [a, b, c, d, e, g, h, i] =
      f (f (f (f (f (f (f (f x0 a) b) c) d) e) g) h) i := by
  simp only [List.foldl_cons, List.foldl_nil]

/-- The packed 64-bit value of sign always fits in 64 bits when the
two data bytes are byte-valued, so struct.pack never fails there. -/
lemma or3_lt (x : Int) (d0 d1 : Nat) (h0 : d0 < 256) (h1 : d1 < 256) :
    ((x.emod 4294967296).toNat <<< 16) ||| (d0 <<< 48) ||| (d1 <<< 56) <
      18446744073709551616 := by
  have hnn : 0 ≤ x.emod 4294967296 := Int.emod_nonneg x (by norm_num)
  have hlt : x.emod 4294967296 < 4294967296 := Int.emod_lt_of_pos x (by norm_num)
  have hm : (x.emod 4294967296).toNat < 2^32 := by omega
  have hsh : (x.emod 4294967296).toNat <<< 16 < 2^64 :=
    lt_of_lt_of_le (Nat.shiftLeft_lt hm) (by norm_num)
  have hd0 : d0 <<< 48 < 2^64 :=
    lt_of_lt_of_le (Nat.shiftLeft_lt (show d0 < 2^16 by omega)) (by norm_num)
  have hd1 : d1 <<< 56 < 2^64 :=
    lt_of_lt_of_le (Nat.shiftLeft_lt (show d1 < 2^8 by omega)) (by norm_num)
  have h64 : (2:Nat)^64 = 18446744073709551616 := by norm_num
  rw [← h64]
  exact Nat.bitwise_lt (Nat.bitwise_lt hsh hd0) hd1

/-- sign succeeds and yields six bytes whenever the data is at least
two byte-valued entries long, regardless of the key. -/
lemma sign_total (d0 d1 : Nat) (rest key : List Nat) (h0 : d0 < 256) (h1 : d1 < 256) :
    ∃ s, sign (d0 :: d1 :: rest) key = some s ∧ s.length = 6 := by
  unfold sign
  simp only [List.cons_append, List.getElem?_cons_zero, List.getElem?_cons_succ,
    Option.bind_eq_bind, Option.some_bind, pack_q]
  rw [if_pos (or3_lt _ d0 d1 h0 h1)]
  exact ⟨_, rfl, rfl⟩

/-- C1: for every 2-byte data and 6-byte key, sign equals the
reference computation of the specification: the accumulator starts at
blob[0] << 7, is updated once per byte of the 8-byte blob by
multiplying with 1000003 modulo 2^64, reinterpreting as signed 64-bit
and XORing with the byte and with len(blob), and the result is the
8-byte little-endian packing of ((x & 0xffffffff) << 16) or-ed with
data[0] << 48 and data[1] << 56, with its first two bytes removed. -/
theorem sign_matches_reference (d0 d1 k0 k1 k2 k3 k4 k5 : Nat)
    (h0 : d0 < 256) (h1 : d1 < 256) (hk0 : k0 < 256) (hk1 : k1 < 256)
    (hk2 : k2 < 256) (hk3 : k3 < 256) (hk4 : k4 < 256) (hk5 : k5 < 256) :
    sign [d0, d1] [k0, k1, k2, k3, k4, k5] = some (signSpec d0 d1 k0 k1 k2 k3 k4 k5) := by
  unfold sign
  simp only [List.cons_append, List.nil_append, List.getElem?_cons_zero,
    List.getElem?_cons_succ, Option.bind_eq_bind, Option.some_bind, pack_q]
  rw [if_pos (or3_lt _ d0 d1 h0 h1)]
  have hlen : ([d0, d1, k0, k1, k2, k3, k4, k5] : List Nat).length = 8 := rfl
  simp only [Option.some_bind, Option.pure_def, hlen]
  rw [foldl_chain8]
  simp only [c_mul]
  simp only [signSpec, pack_le, List.drop_succ_cons, List.drop_zero]

/-- Witness for C1 at the concrete input data 01 01 and the all-zero
6-byte key. -/
theorem sign_matches_reference_witness :
    sign [1, 1] [0, 0, 0, 0, 0, 0] = some (signSpec 1 1 0 0 0 0 0 0) :=
  sign_matches_reference 1 1 0 0 0 0 0 0 (by decide) (by decide) (by decide)
    (by decide) (by decide) (by decide) (by decide) (by decide)

/-- Counterexample to C4: sign does not signal any error when the key
is not 6 bytes long.  With valid 2-byte data and a 7-byte key it
returns a signature. -/
theorem sign_accepts_invalid_lengths :
    (sign [0x01, 0x00] [0, 0, 0, 0, 0, 0, 0]).isSome = true := by decide

/-- C4 amended: sign performs no explicit length validation at all.
For any data with at least two byte-valued entries it returns a 6-byte
signature whatever the key length; it fails (an uncaught IndexError,
not a dedicated InvalidInput error) exactly when data has fewer than
two bytes. -/
theorem sign_no_length_validation (data key : List Nat) (hb : ∀ x ∈ data, x < 256) :
    (2 ≤ data.length → ∃ s, sign data key = some s ∧ s.length = 6) ∧
    (data.length < 2 → sign data key = none) := by
  constructor
  · intro h2
    match data, hb, h2 with
    | d0 :: d1 :: rest, hb, _ =>
      exact sign_total d0 d1 rest key (hb d0 (by simp)) (hb d1 (by simp))
  · intro h2
    match data, h2 with
    | [], _ =>
      cases h : key[0]? <;> simp [sign, h]
    | [d], _ =>
      simp [sign]

/-- Witness for the amended C4 at a 2-byte data and a 1-byte key. -/
theorem sign_no_length_validation_witness :
    ∃ s, sign [1, 2] [3] = some s ∧ s.length = 6 :=
  (sign_no_length_validation [1, 2] [3] (by decide)).1 (by decide)

/-- C2: a legacy switch command first writes the notify-enable payload
to the state-notify handle 0x0f with response, then writes the
signature of 0x01 followed by the desired byte to the legacy state
handle 0x0e, then suspends awaiting a notification; a notification
whose last byte is zero yields exit code 0, a nonzero last byte yields
exit code 1. -/
theorem legacy_switch_writes_and_outcome
    (auth_key : List Nat) (hk : auth_key.length = 6)
    (v : Nat) (hv : v < 256)
    (data : List Nat) (b : Nat) (hb : data.getLast? = some b) :
    (∃ sv, sign ([0x01] ++ [v]) auth_key = some sv ∧
      switch_old_firmware auth_key [v] = OldSwitchResult.waiting
        [⟨STATE_NOTIFY_HANDLE, ENABLE_NOTIFY, true⟩, ⟨OLD_STATE_HANDLE, sv, false⟩]) ∧
    (handleNotification STATE_NOTIFY_HANDLE data).map NotifyResult.exitCode =
      some (if b = 0 then 0 else 1) := by
  constructor
  · obtain ⟨sv, hsv, _⟩ := sign_total 0x01 v [] auth_key (by norm_num) hv
    refine ⟨sv, ?_, ?_⟩
    · simpa using hsv
    · unfold switch_old_firmware
      simp only [List.cons_append, List.nil_append]
      rw [hsv]
  · unfold handleNotification
    rw [if_neg (by decide : ¬ (STATE_NOTIFY_HANDLE = AUTH_HANDLE))]
    rw [hb]
    by_cases hb0 : b = 0 <;> simp [hb0, NotifyResult.exitCode]

/-- Witness for C2: all-zero 6-byte key, switching on, and a success
notification payload ending in 0x00. -/
theorem legacy_switch_writes_and_outcome_witness :
    (∃ sv, sign ([0x01] ++ [1]) [0, 0, 0, 0, 0, 0] = some sv ∧
      switch_old_firmware [0, 0, 0, 0, 0, 0] [1] = OldSwitchResult.waiting
        [⟨STATE_NOTIFY_HANDLE, ENABLE_NOTIFY, true⟩, ⟨OLD_STATE_HANDLE, sv, false⟩]) ∧
    (handleNotification STATE_NOTIFY_HANDLE [0, 0]).map NotifyResult.exitCode =
      some (if (0:Nat) = 0 then 0 else 1) :=
  legacy_switch_writes_and_outcome [0, 0, 0, 0, 0, 0] rfl 1 (by decide) [0, 0] 0 rfl

/-- C3: on a Current-generation device, writeState short-circuits when
the current state already equals the desired bytes (no GATT write, an
"already" report), and otherwise performs exactly one write of the
desired bytes to the resolved state handle with response and reports
success. -/
theorem writeState_idempotent_short_circuit (device : Device) (val : List Nat) :
    (get_state device (some (get_state_handle device)) = val →
      switch_new_firmware device val = ([], SwitchReport.already (val.headD 0))) ∧
    (get_state device (some (get_state_handle device)) ≠ val →
      switch_new_firmware device val =
        ([⟨get_state_handle device, val, true⟩], SwitchReport.switched)) := by
  constructor
  · intro h
    simp [switch_new_firmware, h]
  · intro h
    simp [switch_new_firmware, h]

/-- Witness for C3 on a concrete Original device already in the
desired state. -/
theorem writeState_idempotent_short_circuit_witness :
    switch_new_firmware exDeviceOriginalOn [0x01] = ([], SwitchReport.already 1) :=
  (writeState_idempotent_short_circuit exDeviceOriginalOn [0x01]).1 (by decide)

/-- Counterexample to C5: after 100 one-second polling slices with no
notification delivered, the legacy switch wait is still looping; no
NoResponse failure has been produced within that generous bound. -/
theorem legacy_wait_no_timeout_after_100s :
    switch_old_wait (fun _ => none) 100 = none := by decide

/-- C5 amended: the legacy switch wait loop is unbounded.  If no
notification is ever delivered it keeps polling forever: after any
number of 1-second slices it is still running, and no NoResponse (or
any other) outcome is ever produced; the loop can only end through a
delivered notification firing sys.exit in the delegate. -/
theorem legacy_wait_never_times_out (notifs : Nat → Option (Nat × List Nat))
    (h : ∀ k, notifs k = none) (n : Nat) :
    switch_old_wait notifs n = none := by
  induction n generalizing notifs with
  | zero => rfl
  | succ n ih =>
    unfold switch_old_wait
    rw [h 0]
    exact ih _ (fun k => h (k + 1))

/-- Witness for the amended C5 at the empty notification stream and
three slices. -/
theorem legacy_wait_never_times_out_witness :
    switch_old_wait (fun _ => none) 3 = none :=
  legacy_wait_never_times_out (fun _ => none) (fun _ => rfl) 3

/-- C7: resolving the state handle of a Current-generation device
reads the model string at handle 0x14; the Original state handle 0x2e
is selected exactly when the bytes equal the literal string Original,
and the Bright state handle 0x30 is selected exactly otherwise. -/
theorem get_state_handle_classification (device : Device) :
    (get_state_handle device = ORIGINAL_STATE_HANDLE ↔
      device.readCharacteristic ORIGINAL_MODEL_STRING_HANDLE = ORIGINAL_MODEL_BYTES) ∧
    (get_state_handle device = BRIGHT_STATE_HANDLE ↔
      device.readCharacteristic ORIGINAL_MODEL_STRING_HANDLE ≠ ORIGINAL_MODEL_BYTES) := by
  by_cases h : device.readCharacteristic ORIGINAL_MODEL_STRING_HANDLE = ORIGINAL_MODEL_BYTES <;>
    simp [get_state_handle, is_original_device, h, ORIGINAL_STATE_HANDLE, BRIGHT_STATE_HANDLE]

/-- Counterexample to C8: a legacy switch invoked with the documented
placeholder none instead of an auth key ends in an error no handler
catches (binascii.Error from unhexlify), not in a dedicated
AuthRequired diagnostic. -/
theorem legacy_switch_none_key_uncaught :
    switch_dispatch nullDevice false ("none") [0x01] = MainOutcome.uncaughtError := by decide

/-- C8 amended: whenever the auth-key argument of a legacy switch is
not a valid hex string (in particular the placeholder none used to
invoke switch without a key), the program fails with an uncaught
exception; no AuthRequired error path exists. -/
theorem legacy_switch_invalid_key_uncaught (device : Device) (val : List Nat)
    (s : String) (hs : unhexlify s = none) :
    switch_dispatch device false s val = MainOutcome.uncaughtError := by
  simp [switch_dispatch, hs]

/-- Witness for the amended C8 at another non-hex key argument. -/
theorem legacy_switch_invalid_key_uncaught_witness :
    switch_dispatch nullDevice false ("zz") [0x01] = MainOutcome.uncaughtError :=
  legacy_switch_invalid_key_uncaught nullDevice [0x01] ("zz") (by decide)

/-- Generalised form of the inner scan loop over an arbitrary list of
AD structures: the device is appended exactly when some structure
matches and the device is not yet in the accumulator. -/
lemma scanInner_eq (dev : ScanEntry) (l : List (Nat × String × String)) :
    ∀ acc : List ScanEntry,
      l.foldl (fun acc2 t => if is_switchmate t.1 t.2.2 ∧ dev ∉ acc2 then acc2 ++ [dev] else acc2)
          acc =
        if (∃ t ∈ l, is_switchmate t.1 t.2.2) ∧ dev ∉ acc then acc ++ [dev] else acc := by
  induction l with
  | nil =>
    intro acc
    simp
  | cons t l ih =>
    intro acc
    by_cases hm : is_switchmate t.1 t.2.2
    · by_cases hd : dev ∈ acc
      · rw [List.foldl_cons, if_neg (by tauto), ih]
        by_cases hl : ∃ s ∈ l, is_switchmate s.1 s.2.2 <;> simp [hd, hm, hl]
      · rw [List.foldl_cons, if_pos ⟨hm, hd⟩, ih]
        rw [if_neg (by simp), if_pos ⟨⟨t, by simp, hm⟩, hd⟩]
    · rw [List.foldl_cons, if_neg (by tauto), ih]
      by_cases hd : dev ∈ acc
      · simp [hd]
      · simp only [hd, not_false_iff, and_true]
        congr 1
        simp only [List.mem_cons, eq_iff_iff]
        constructor
        · rintro ⟨s, hs, hsw⟩
          exact ⟨s, Or.inr hs, hsw⟩
        · rintro ⟨s, hs, hsw⟩
          rcases hs with rfl | hs
          · exact absurd hsw hm
          · exact ⟨s, hs, hsw⟩

/-- The inner loop of scan appends the device exactly once: it is
added when some AD structure matches and the device is not yet in the
accumulator, and left out otherwise. -/
lemma scanStep_eq (acc : List ScanEntry) (dev : ScanEntry) :
    scanStep acc dev =
      if dev_matches dev ∧ dev ∉ acc then acc ++ [dev] else acc := by
  unfold scanStep dev_matches
  exact scanInner_eq dev dev.scanData acc

/-- Full characterisation of the scan fold: starting from any
accumulator it appends, in first-seen scanner order, exactly the new
devices with a matching services AD structure, without duplicates. -/
lemma scan_fold_spec (devs : List ScanEntry) :
    ∀ acc : List ScanEntry,
      ∃ t, devs.foldl scanStep acc = acc ++ t ∧
        t.Sublist devs ∧ t.Nodup ∧
        (∀ x ∈ t, x ∉ acc) ∧
        (∀ x, x ∈ t ↔ x ∈ devs ∧ dev_matches x ∧ x ∉ acc) := by
  induction devs with
  | nil =>
    intro acc
    exact ⟨[], by simp, by simp, by simp, by simp, by simp⟩
  | cons dev rest ih =>
    intro acc
    rw [List.foldl_cons, scanStep_eq]
    by_cases hc : dev_matches dev ∧ dev ∉ acc
    · rw [if_pos hc]
      obtain ⟨t, heq, hsub, hnd, hnotin, hmem⟩ := ih (acc ++ [dev])
      refine ⟨dev :: t, ?_, hsub.cons₂ dev, ?_, ?_, ?_⟩
      · rw [heq, List.append_assoc]
        rfl
      · refine List.Nodup.cons ?_ hnd
        intro hdt
        exact hnotin dev hdt (by simp)
      · intro x hx
        rcases List.mem_cons.mp hx with rfl | hxt
        · exact hc.2
        · intro hxa
          exact hnotin x hxt (by simp [hxa])
      · intro x
        constructor
        · intro hx
          rcases List.mem_cons.mp hx with rfl | hxt
          · exact ⟨by simp, hc.1, hc.2⟩
          · obtain ⟨hxr, hxm, hxa⟩ := (hmem x).mp hxt
            refine ⟨by simp [hxr], hxm, ?_⟩
            intro hxacc
            exact hxa (by simp [hxacc])
        · rintro ⟨hxdr, hxm, hxa⟩
          rcases List.mem_cons.mp hxdr with rfl | hxr
          · exact List.mem_cons_self _ _
          · by_cases hxd : x = dev
            · subst hxd
              exact List.mem_cons_self _ _
            · refine List.mem_cons_of_mem _ ((hmem x).mpr ⟨hxr, hxm, ?_⟩)
              simp [hxa, hxd]
    · rw [if_neg hc]
      obtain ⟨t, heq, hsub, hnd, hnotin, hmem⟩ := ih acc
      refine ⟨t, heq, hsub.cons dev, hnd, hnotin, ?_⟩
      intro x
      rw [hmem x]
      constructor
      · rintro ⟨hxr, hxm, hxa⟩
        exact ⟨List.mem_cons_of_mem _ hxr, hxm, hxa⟩
      · rintro ⟨hxdr, hxm, hxa⟩
        rcases List.mem_cons.mp hxdr with rfl | hxr
        · exact absurd ⟨hxm, hxa⟩ hc
        · exact ⟨hxr, hxm, hxa⟩

/-- Counterexample to C9: scan output is not sorted by address.  With
the old-firmware device at address 0xbb discovered before the
new-firmware device at address 0xaa, the addresses are printed in
scanner order 0xbb, 0xaa, which is not sorted. -/
theorem scan_output_not_sorted :
    (scan_switchmates [devB, devA]).map ScanEntry.addr = [0xbb, 0xaa] ∧
    ¬ List.Sorted (fun a b : Nat => a ≤ b)
      ((scan_switchmates [devB, devA]).map ScanEntry.addr) := by
  constructor
  · decide
  · decide

/-- C9 amended: the scan verb outputs each matching device record
exactly once, in the scanner's discovery order (the output is a
duplicate-free subsequence of the scanner's device sequence); no sort
by address is applied. -/
theorem scan_output_dedup_in_scan_order (devices : List ScanEntry) :
    (scan_switchmates devices).Nodup ∧
    (scan_switchmates devices).Sublist devices := by
  obtain ⟨t, heq, hsub, hnd, _, _⟩ := scan_fold_spec devices []
  unfold scan_switchmates
  rw [heq, List.nil_append]
  exact ⟨hnd, hsub⟩

/-- C10: a device is listed by the scan verb exactly when at least one
of its advertisement structures has AD type 0x07 with value equal to
the old-firmware or the new-firmware service UUID string: both
generations are recognized as scan targets. -/
theorem scan_lists_both_generations (devices : List ScanEntry) (d : ScanEntry) :
    d ∈ scan_switchmates devices ↔
      d ∈ devices ∧ ∃ t ∈ d.scanData, t.1 = SERVICES_AD_TYPE ∧
        (t.2.2 = OLD_FIRMWARE_SERVICE ∨ t.2.2 = NEW_FIRMWARE_SERVICE) := by
  obtain ⟨t, heq, _, _, _, hmem⟩ := scan_fold_spec devices []
  unfold scan_switchmates
  rw [heq, List.nil_append, hmem d]
  simp [dev_matches, is_switchmate, SWITCHMATE_SERVICES]

/-- One discovery step preserves the classification invariant: every
device in found_old advertises the old-firmware service, every device
in found_new advertises the new-firmware service. -/
lemma handleDiscovery_services (mac : Option Nat) (st : ScanState) (dev : ScanEntry)
    (ho : ∀ d ∈ st.found_old, getValueText d SERVICES_AD_TYPE = some OLD_FIRMWARE_SERVICE)
    (hn : ∀ d ∈ st.found_new, getValueText d SERVICES_AD_TYPE = some NEW_FIRMWARE_SERVICE) :
    (∀ d ∈ (handleDiscovery mac st dev).found_old,
      getValueText d SERVICES_AD_TYPE = some OLD_FIRMWARE_SERVICE) ∧
    (∀ d ∈ (handleDiscovery mac st dev).found_new,
      getValueText d SERVICES_AD_TYPE = some NEW_FIRMWARE_SERVICE) := by
  unfold handleDiscovery
  dsimp only
  split_ifs with h1 h2 h3 h4
  · exact ⟨ho, hn⟩
  · exact ⟨ho, hn⟩
  · refine ⟨?_, hn⟩
    intro d hd
    rcases List.mem_append.mp hd with hd | hd
    · exact ho d hd
    · rw [List.mem_singleton.mp hd]
      exact h3
  · refine ⟨ho, ?_⟩
    intro d hd
    rcases List.mem_append.mp hd with hd | hd
    · exact hn d hd
    · rw [List.mem_singleton.mp hd]
      exact h4
  · exact ⟨ho, hn⟩

/-- The classification invariant holds of the delegate state after any
sequence of discoveries. -/
lemma processDiscoveries_services (mac : Option Nat) (devs : List ScanEntry) :
    (∀ d ∈ (processDiscoveries mac devs).found_old,
      getValueText d SERVICES_AD_TYPE = some OLD_FIRMWARE_SERVICE) ∧
    (∀ d ∈ (processDiscoveries mac devs).found_new,
      getValueText d SERVICES_AD_TYPE = some NEW_FIRMWARE_SERVICE) := by
  unfold processDiscoveries
  have main : ∀ st : ScanState,
      (∀ d ∈ st.found_old, getValueText d SERVICES_AD_TYPE = some OLD_FIRMWARE_SERVICE) →
      (∀ d ∈ st.found_new, getValueText d SERVICES_AD_TYPE = some NEW_FIRMWARE_SERVICE) →
      (∀ d ∈ (devs.foldl (handleDiscovery mac) st).found_old,
        getValueText d SERVICES_AD_TYPE = some OLD_FIRMWARE_SERVICE) ∧
      (∀ d ∈ (devs.foldl (handleDiscovery mac) st).found_new,
        getValueText d SERVICES_AD_TYPE = some NEW_FIRMWARE_SERVICE) := by
    induction devs with
    | nil =>
      intro st ho hn
      exact ⟨ho, hn⟩
    | cons dev rest ih =>
      intro st ho hn
      rw [List.foldl_cons]
      obtain ⟨ho2, hn2⟩ := handleDiscovery_services mac st dev ho hn
      exact ih _ ho2 hn2
  exact main ⟨[], [], []⟩ (by simp) (by simp)

/-- Counterexample to C6: a Current-generation (new-firmware) device
whose advertisement does carry the state (service-data value 0100,
which decodes to state on) is nevertheless handled by a
connect-and-read during a status scan, not from the advertisement. -/
theorem status_connects_despite_advertised_state :
    advertised_state newDevEx = some 1 ∧
    print_found (processDiscoveries none [newDevEx]) =
      [StatusAction.connectAndRead 0xaa] := by
  constructor
  · decide
  · decide

/-- C6 amended: during a status scan it is the old-firmware devices
whose on/off state is resolved directly from the advertisement
service-data payload, while every new-firmware (Current-generation)
device is read by connecting, regardless of its advertisement; the
found lists are classified exactly by the advertised service UUID. -/
theorem status_resolution_by_generation (mac : Option Nat) (devs : List ScanEntry) :
    print_found (processDiscoveries mac devs) =
      ((processDiscoveries mac devs).found_old.map
        (fun d => StatusAction.fromAdvertisement d.addr (advertised_state d))) ++
      ((processDiscoveries mac devs).found_new.map
        (fun d => StatusAction.connectAndRead d.addr)) ∧
    (∀ d ∈ (processDiscoveries mac devs).found_old,
      getValueText d SERVICES_AD_TYPE = some OLD_FIRMWARE_SERVICE) ∧
    (∀ d ∈ (processDiscoveries mac devs).found_new,
      getValueText d SERVICES_AD_TYPE = some NEW_FIRMWARE_SERVICE) := by
  obtain ⟨ho, hn⟩ := processDiscoveries_services mac devs
  exact ⟨rfl, ho, hn⟩

end Switchmate
